import Mathlib

/-!
Verification of the concurrency core of the wee-slack rewrite.

The development shallowly embeds:

* the per-workspace user/bot dictionaries of `slack/slack_workspace.py`
  (`SlackUsers.__missing__`, `SlackBots.__missing__`, `initialize_items`);
* the websocket read callback `SlackWorkspace.ws_read_cb` of the same file;
* the `http_request` retry/backoff/rate-limit state machine and the `sleep`
  timer primitive.  The files `slack/http.py` and `slack/task.py` are not part
  of the visible source tree (only their unit tests are), so those definitions
  are modelled from the specification (sections 4.2, 4.3, 6 and 7) and are
  marked `Modelled from the spec:` in their doc comments; the unit tests in
  `tests/test_http_request.py` and `tests/test_sleep.py` fix the observable
  behaviour (hook arguments, delivery tuples, error fields).

Futures and tasks are represented by the numeric ids the host uses to route
callbacks; the body of a task is recorded as a `Coro` tag so that theorems can
count and identify created tasks.
-/

/-! ## Association lists (Python `dict` with insertion order) -/

/-- Lookup in an insertion-ordered association list, as Python `key in d` /
`d[key]`. -/
def lookupEntry {α : Type} : List (String × α) → String → Option α
  | [], _ => none
  | (k', v') :: rest, k => if k' = k then some v' else lookupEntry rest k

/-- Store `d[key] = v` in an insertion-ordered association list: replace in
place when the key exists, append otherwise. -/
def setEntry {α : Type} : List (String × α) → String → α → List (String × α)
  | [], k, v => [(k, v)]
  | (k', v') :: rest, k, v =>
    if k' = k then (k, v) :: rest else (k', v') :: setEntry rest k v

/-! ## Tasks and task creation (`slack.task.create_task`) -/

/-- The coroutine wrapped by a created task, recorded so theorems can identify
which tasks a call created.  `usersCreateItem key infoTask` is
`SlackUsers._create_item(key, items_info_task)` (`none` when no info task is
passed), `usersFetchItemsInfo ids` is `SlackUsers._fetch_items_info(ids)`;
the `bots` constructors mirror the duplicated `SlackBots` methods. -/
inductive Coro where
  | usersCreateItem (itemId : String) (infoTask : Option Nat)
  | usersFetchItemsInfo (itemIds : List String)
  | botsCreateItem (itemId : String) (infoTask : Option Nat)
  | botsFetchItemsInfo (itemIds : List String)
deriving DecidableEq

/-- Process-wide task bookkeeping: the next fresh Future id and the list of
tasks created so far (id paired with the coroutine it wraps). -/
structure TaskCtx where
  nextId : Nat
  created : List (Nat × Coro)
deriving DecidableEq

/-- `create_task(coro)`: allocates a task with a fresh Future id and records
it.  The returned id stands for the task's Future. -/
def create_task (ctx : TaskCtx) (c : Coro) : Nat × TaskCtx :=
  (ctx.nextId, ⟨ctx.nextId + 1, ctx.created ++ [(ctx.nextId, c)]⟩)

/-! ## `SlackUsers` and `SlackBots` (slack/slack_workspace.py) -/

/-- The `SlackUsers` mapping: user id to the Future (task id) of its
initialization.  The `workspace` back-pointer is irrelevant to the claims and
omitted. -/
structure SlackUsers where
  entries : List (String × Nat)
deriving DecidableEq

/-- The `SlackBots` mapping, duplicated in the source exactly like
`SlackUsers`. -/
structure SlackBots where
  entries : List (String × Nat)
deriving DecidableEq

/-- `SlackUsers.__missing__(key)`: stores `create_task(self._create_item(key))`
under `key` and returns the stored Future. -/
def SlackUsers.missing (m : SlackUsers) (ctx : TaskCtx) (key : String) :
    Nat × SlackUsers × TaskCtx :=
  let r := create_task ctx (Coro.usersCreateItem key none)
  (r.1, ⟨setEntry m.entries key r.1⟩, r.2)

/-- `self[key]` on a `SlackUsers` dict: return the stored Future when present,
otherwise Python invokes `__missing__`. -/
def SlackUsers.getItem (m : SlackUsers) (ctx : TaskCtx) (key : String) :
    Nat × SlackUsers × TaskCtx :=
  match lookupEntry m.entries key with
  | some tid => (tid, m, ctx)
  | none => SlackUsers.missing m ctx key

/-- The `for item_id in item_ids_to_init` loop body of
`SlackUsers.initialize_items`: `self[item_id] =
create_task(self._create_item(item_id, items_info_task))`. -/
def SlackUsers.initLoop (fetchId : Nat) :
    List String → SlackUsers → TaskCtx → SlackUsers × TaskCtx
  | [], m, ctx => (m, ctx)
  | i :: is, m, ctx =>
    let r := create_task ctx (Coro.usersCreateItem i (some fetchId))
    SlackUsers.initLoop fetchId is ⟨setEntry m.entries i r.1⟩ r.2

/-- `SlackUsers.initialize_items(item_ids)`: collect the ids not already
present (a Python `set`, embedded as filter plus duplicate removal), and if
any, create one shared `_fetch_items_info` task and one `_create_item` task
per absent id, storing the latter under the id. -/
def SlackUsers.initialize_items (m : SlackUsers) (ctx : TaskCtx)
    (item_ids : List String) : SlackUsers × TaskCtx :=
  let toInit := (item_ids.filter fun i => (lookupEntry m.entries i).isNone).dedup
  if toInit = [] then (m, ctx)
  else
    let r := create_task ctx (Coro.usersFetchItemsInfo toInit)
    SlackUsers.initLoop r.1 toInit m r.2

/-- `SlackBots.__missing__(key)`, duplicated from `SlackUsers`. -/
def SlackBots.missing (m : SlackBots) (ctx : TaskCtx) (key : String) :
    Nat × SlackBots × TaskCtx :=
  let r := create_task ctx (Coro.botsCreateItem key none)
  (r.1, ⟨setEntry m.entries key r.1⟩, r.2)

/-- `self[key]` on a `SlackBots` dict. -/
def SlackBots.getItem (m : SlackBots) (ctx : TaskCtx) (key : String) :
    Nat × SlackBots × TaskCtx :=
  match lookupEntry m.entries key with
  | some tid => (tid, m, ctx)
  | none => SlackBots.missing m ctx key

/-- The `for` loop body of `SlackBots.initialize_items`. -/
def SlackBots.initLoop (fetchId : Nat) :
    List String → SlackBots → TaskCtx → SlackBots × TaskCtx
  | [], m, ctx => (m, ctx)
  | i :: is, m, ctx =>
    let r := create_task ctx (Coro.botsCreateItem i (some fetchId))
    SlackBots.initLoop fetchId is ⟨setEntry m.entries i r.1⟩ r.2

/-- `SlackBots.initialize_items(item_ids)`, duplicated from `SlackUsers`. -/
def SlackBots.initialize_items (m : SlackBots) (ctx : TaskCtx)
    (item_ids : List String) : SlackBots × TaskCtx :=
  let toInit := (item_ids.filter fun i => (lookupEntry m.entries i).isNone).dedup
  if toInit = [] then (m, ctx)
  else
    let r := create_task ctx (Coro.botsFetchItemsInfo toInit)
    SlackBots.initLoop r.1 toInit m r.2

/-- The expected list of `_create_item` tasks created by the users
`initialize_items` loop: consecutive ids starting at `base`, each wrapping
`_create_item(i, items_info_task)` with the shared fetch task `fetchId`. -/
def tasksForUsers (fetchId : Nat) (base : Nat) : List String → List (Nat × Coro)
  | [] => []
  | i :: is => (base, Coro.usersCreateItem i (some fetchId)) :: tasksForUsers fetchId (base + 1) is

/-- The expected list of `_create_item` tasks created by the bots
`initialize_items` loop. -/
def tasksForBots (fetchId : Nat) (base : Nat) : List String → List (Nat × Coro)
  | [] => []
  | i :: is => (base, Coro.botsCreateItem i (some fetchId)) :: tasksForBots fetchId (base + 1) is

/-! ## Websocket read callback (`SlackWorkspace.ws_read_cb`) -/

/-- Websocket frame opcodes from `websocket.ABNF`. -/
def ABNF.OPCODE_CONT : Nat := 0

def ABNF.OPCODE_TEXT : Nat := 1

def ABNF.OPCODE_BINARY : Nat := 2

def ABNF.OPCODE_CLOSE : Nat := 8

def ABNF.OPCODE_PING : Nat := 9

def ABNF.OPCODE_PONG : Nat := 10

/-- Host return code `weechat.WEECHAT_RC_OK`. -/
def WEECHAT_RC_OK : Int := 0

/-- Outcome of one `self.ws.recv_data(control_frame=True)` call on the
non-blocking socket: a frame, `ssl.SSLWantReadError` (the read would block),
or `WebSocketConnectionClosedException` / `socket.error`. -/
inductive ReadResult where
  | frame (opcode : Nat) (data : String)
  | wouldBlock
  | closedOrError (msg : String)
deriving DecidableEq

/-- The mutable state `ws_read_cb` touches: the `last_pong_time` liveness
timestamp, the messages handed to `self.ws_recv` (the frame text passed to
`json.loads`; JSON decoding itself is opaque to the claims), and whether the
fd readiness hook was removed (no statement of `ws_read_cb` unhooks, so no
branch ever sets it). -/
structure WsState where
  lastPongTime : Option Nat
  received : List String
  hookRemoved : Bool
deriving DecidableEq

/-- `SlackWorkspace.ws_read_cb(data, fd)`: loop reading one frame at a time
from the prescribed sequence of read outcomes.  Returns the final state, the
number of reads attempted in this invocation, and the host return code.
`now` stands for `time.time()`. -/
def ws_read_cb (now : Nat) (st : WsState) : List ReadResult → WsState × Nat × Int
  | [] => (st, 0, WEECHAT_RC_OK)
  | ReadResult.wouldBlock :: _ => (st, 1, WEECHAT_RC_OK)
  | ReadResult.closedOrError _ :: _ => (st, 1, WEECHAT_RC_OK)
  | ReadResult.frame op d :: rest =>
    if op = ABNF.OPCODE_PONG then
      ({ st with lastPongTime := some now }, 1, WEECHAT_RC_OK)
    else if op ≠ ABNF.OPCODE_TEXT then
      (st, 1, WEECHAT_RC_OK)
    else
      let r := ws_read_cb now { st with received := st.received ++ [d] } rest
      (r.1, r.2.1 + 1, r.2.2)

/-! ## HTTP response parsing helpers

Modelled from the spec: section 6 fixes the framing
`STATUS-LINE CRLF *(HEADER-LINE CRLF) CRLF BODY` with
`STATUS-LINE = <proto> <status-code> <reason>`, and section 4.3 reads the
`Retry-After` header (integer seconds) on status 429.  Parsing works on
character lists so every function is structurally recursive and executable. -/

/-- Whether `p` is an initial segment of `s`. -/
def listStarts : List Char → List Char → Bool
  | [], _ => true
  | _ :: _, [] => false
  | p :: ps, c :: cs => p == c && listStarts ps cs

/-- Split at the first occurrence of `sep`: `some (part before, part after)`,
`none` when `sep` does not occur. -/
def splitFirst (sep : List Char) : List Char → Option (List Char × List Char)
  | [] => none
  | c :: cs =>
    if listStarts sep (c :: cs) then some ([], (c :: cs).drop sep.length)
    else
      match splitFirst sep cs with
      | some (pre, post) => some (c :: pre, post)
      | none => none

/-- Split a character list on CRLF boundaries (`acc` holds the current line
reversed). -/
def splitLinesAux : List Char → List Char → List (List Char)
  | [], acc => [acc.reverse]
  | '\r' :: '\n' :: rest, acc => acc.reverse :: splitLinesAux rest []
  | c :: rest, acc => splitLinesAux rest (c :: acc)

/-- Split a header block into its CRLF-separated lines. -/
def splitLines (s : List Char) : List (List Char) := splitLinesAux s []

/-- Split on a separator character, keeping empty pieces. -/
def splitOnChar (sep : Char) : List Char → List Char → List (List Char)
  | [], acc => [acc.reverse]
  | c :: rest, acc =>
    if c = sep then acc.reverse :: splitOnChar sep rest []
    else splitOnChar sep rest (c :: acc)

/-- Decimal digit value of a character, `none` for non-digits. -/
def digitVal (c : Char) : Option Nat :=
  if '0' ≤ c ∧ c ≤ '9' then some (c.toNat - '0'.toNat) else none

/-- Accumulating decimal parser; fails on any non-digit. -/
def parseNatAux : List Char → Nat → Option Nat
  | [], n => some n
  | c :: rest, n =>
    match digitVal c with
    | some d => parseNatAux rest (n * 10 + d)
    | none => none

/-- Parse a non-empty all-digit character list as a natural number. -/
def parseNatChars : List Char → Option Nat
  | [] => none
  | s => parseNatAux s 0

/-- ASCII lowercase. -/
def lowerChar (c : Char) : Char :=
  if 'A' ≤ c ∧ c ≤ 'Z' then Char.ofNat (c.toNat + 32) else c

/-- Find the value of the header called `name` (lowercase) among header
lines, comparing the part before the colon case-insensitively and stripping
leading spaces from the value. -/
def headerNamed (name : List Char) : List (List Char) → Option (List Char)
  | [] => none
  | l :: ls =>
    let nm := l.takeWhile fun c => ¬ c = ':'
    if nm.map lowerChar = name then
      some (((l.drop (nm.length + 1)).dropWhile fun c => c = ' '))
    else headerNamed name ls

/-- Modelled from the spec: parse a raw HTTP response per the section 6
framing — split the header block from the body at the first blank line,
read the status code as the second whitespace-separated token of the status
line, and return `(status, header lines, body)`; `none` when there is no
header block or no parseable status code (section 4.3: "if no header bytes
and no stderr text either, still a failure"). -/
def parseResponse (out : String) : Option (Nat × List (List Char) × String) :=
  match splitFirst ['\r', '\n', '\r', '\n'] out.data with
  | none => none
  | some (head, body) =>
    match splitLines head with
    | [] => none
    | statusLine :: headerLines =>
      match (splitOnChar ' ' statusLine []).filter (fun w => ¬ w.isEmpty) with
      | _ :: code :: _ =>
        match parseNatChars code with
        | some status => some (status, headerLines, String.mk body)
        | none => none
      | _ => none

/-! ## The `http_request` engine (slack/http.py, modelled from the spec) -/

/-- The structured HTTP failure `HttpError(url, return_code, http_status,
error)` raised by `http_request`. -/
structure HttpError where
  url : String
  return_code : Int
  http_status : Nat
  error : String
deriving DecidableEq

/-- HTTP attempt state (spec section 3): url, per-request options, timeout
and remaining retry budget. -/
structure HttpAttempt where
  url : String
  options : List (String × String)
  timeout : Int
  retriesLeft : Nat
deriving DecidableEq

/-- The states of the `http_request` state machine of spec section 4.3.
`dispatching` is instantaneous (the process hook of an `awaitingProcess`
state is registered on entry), so the reachable suspension states are
`awaitingProcess` and `backingOff`; `succeeded` and `failed` are terminal. -/
inductive HttpState where
  | awaitingProcess (a : HttpAttempt)
  | backingOff (a : HttpAttempt) (delayMs : Nat)
  | succeeded (body : String)
  | failed (e : HttpError)
deriving DecidableEq

/-- Modelled from the spec: the fixed backoff delay for retryable errors.
Section 9 leaves the exact policy open ("fixed/incremental ... must be
deterministic and bounded"); a constant delay is chosen. -/
def httpBackoffMs : Nat := 1000

/-- Modelled from the spec: the `retryable_error` state of section 4.3 — if
retries remain, decrement the budget and back off before re-dispatching,
otherwise fail terminally with the error. -/
def retryOrFail (a : HttpAttempt) (e : HttpError) : HttpState :=
  if a.retriesLeft > 0 then
    HttpState.backingOff { a with retriesLeft := a.retriesLeft - 1 } httpBackoffMs
  else HttpState.failed e

/-- The `(stdout, return_code, stderr)` delivery of the host process hook
(the leading component is the command string the host echoes back, as in
`weechat.hook_process_hashtable` callbacks). -/
structure ProcPayload where
  command : String
  returnCode : Int
  stdout : String
  stderr : String
deriving DecidableEq

/-- Modelled from the spec: the `awaiting_process` transition of section 4.3
with the error taxonomy of section 7.  A nonzero return code or stderr output
is a transport failure carrying `http_status = 0` and the stderr text; an
unparseable response is likewise a failure with `http_status = 0`; status 429
with a `Retry-After` header backs off for that many seconds (in
milliseconds) without touching the budget; other statuses at least 400 are
retryable HTTP errors carrying the body; anything else succeeds with the
body. -/
def httpOnProcess (a : HttpAttempt) (p : ProcPayload) : HttpState :=
  if p.returnCode ≠ 0 ∨ p.stderr ≠ "" then
    retryOrFail a ⟨a.url, p.returnCode, 0, p.stderr⟩
  else
    match parseResponse p.stdout with
    | none => retryOrFail a ⟨a.url, 0, 0, p.stderr⟩
    | some (status, headers, body) =>
      if status = 429 then
        match headerNamed ['r', 'e', 't', 'r', 'y', '-', 'a', 'f', 't', 'e', 'r'] headers with
        | some v =>
          match parseNatChars v with
          | some secs => HttpState.backingOff a (secs * 1000)
          | none => retryOrFail a ⟨a.url, 0, status, body⟩
        | none => retryOrFail a ⟨a.url, 0, status, body⟩
      else if status ≥ 400 then
        retryOrFail a ⟨a.url, 0, status, body⟩
      else HttpState.succeeded body

/-- Modelled from the spec: `http_request(url, options, timeout, max_retries)`
enters `dispatching` and immediately suspends awaiting the process hook. -/
def http_request (url : String) (options : List (String × String))
    (timeout : Int) (max_retries : Nat) : HttpState :=
  HttpState.awaitingProcess ⟨url, options, timeout, max_retries⟩

/-- A registered `weechat.hook_process_hashtable(command, options, timeout,
cb, id)` call: the command is `url:<url>` and the options always carry the
injected `header = 1` marker requesting response headers. -/
structure ProcessHook where
  command : String
  options : List (String × String)
  timeout : Int
  callbackId : Nat
deriving DecidableEq

/-- A registered `weechat.hook_timer(delay_ms, align_second, max_calls, cb,
id)` call; `maxCalls = 1` makes it one-shot. -/
structure TimerHook where
  delayMs : Nat
  alignSecond : Nat
  maxCalls : Nat
  callbackId : Nat
deriving DecidableEq

/-- A host hook registered by the engine at a suspension point. -/
inductive Hook where
  | process : ProcessHook → Hook
  | timer : TimerHook → Hook
deriving DecidableEq

/-- The hook the engine registers on entering a suspension state, keyed by
the fresh Future id `n`: a process hook on the merged options (the `header`
marker injected, as `options["header"] = "1"`) for `awaitingProcess`, a
one-shot timer for `backingOff`; terminal states register nothing. -/
def httpPendingHook : HttpState → Nat → Option Hook
  | HttpState.awaitingProcess a, n =>
    some (Hook.process ⟨"url:" ++ a.url, setEntry a.options "header" "1", a.timeout, n⟩)
  | HttpState.backingOff _ ms, n => some (Hook.timer ⟨ms, 0, 1, n⟩)
  | _, _ => none

/-- A raw payload delivered by the host to the callback id it targets: a
process completion tuple or a timer completion tuple (`(0,)` in the tests). -/
inductive Delivery where
  | proc (targetId : Nat) (p : ProcPayload)
  | timer (targetId : Nat) (t : List Int)
deriving DecidableEq

/-- Deliver one host payload to the engine: a process delivery targeting the
pending Future id resumes `awaitingProcess`, a timer delivery resumes
`backingOff` back to dispatching (the rate-limit path replays the identical
request; the retry path re-issues with the same inputs).  Anything else is a
stale delivery and a no-op (`none`). -/
def deliverHttp (s : HttpState) (n : Nat) (d : Delivery) : Option HttpState :=
  match s, d with
  | HttpState.awaitingProcess a, Delivery.proc id p =>
    if id = n then some (httpOnProcess a p) else none
  | HttpState.backingOff a _, Delivery.timer id _ =>
    if id = n then some (HttpState.awaitingProcess a) else none
  | _, _ => none

/-- Drive the engine over a list of host deliveries, threading the fresh
Future id counter (each suspension consumes one id).  Returns the hooks
registered, in order, and the final state; a terminal state ignores further
deliveries, and a delivery that does not match the pending suspension stops
the run. -/
def runHttp (s : HttpState) (n : Nat) : List Delivery → List Hook × HttpState
  | [] => ((httpPendingHook s n).toList, s)
  | d :: ds =>
    match httpPendingHook s n with
    | none => ([], s)
    | some h =>
      match deliverHttp s n d with
      | some s' =>
        let r := runHttp s' (n + 1) ds
        (h :: r.1, r.2)
      | none => ([h], s)

/-! ## The `sleep` timer primitive (slack/task.py, modelled from the spec) -/

/-- The state of one `sleep` call: suspended on its timer, or finished with
the delivered payload. -/
inductive SleepState where
  | waiting (durationMs : Nat)
  | finished (payload : List Int)
deriving DecidableEq

/-- Modelled from the spec: `sleep(duration)` registers a one-shot timer with
the host keyed by a fresh Future id, suspends until the host delivers
completion, and returns the delivered payload verbatim. -/
def sleep (duration : Nat) : SleepState := SleepState.waiting duration

/-- The timer hook a suspended `sleep` has registered, keyed by its Future id
`n`: `weechat.hook_timer(duration, 0, 1, cb, n)`. -/
def sleepPendingHook : SleepState → Nat → Option TimerHook
  | SleepState.waiting d, n => some ⟨d, 0, 1, n⟩
  | SleepState.finished _, _ => none

/-- Deliver a host payload to a `sleep` call: only a timer delivery targeting
the Future id it suspends on resumes it, returning the payload verbatim. -/
def sleepDeliver : SleepState → Nat → Delivery → Option SleepState
  | SleepState.waiting _, n, Delivery.timer id p =>
    if id = n then some (SleepState.finished p) else none
  | _, _, _ => none

/-- Drive a `sleep` call over host deliveries, collecting the timer hooks it
registers. -/
def runSleep (s : SleepState) (n : Nat) : List Delivery → List TimerHook × SleepState
  | [] => ((sleepPendingHook s n).toList, s)
  | d :: ds =>
    match sleepPendingHook s n with
    | none => ([], s)
    | some h =>
      match sleepDeliver s n d with
      | some s' =>
        let r := runSleep s' (n + 1) ds
        (h :: r.1, r.2)
      | none => ([h], s)

/-- Shape invariant of every `HttpError` the engine can surface: a transport
failure carries `http_status = 0` and an HTTP-level failure carries
`return_code = 0`, so a failed state never has both discriminating
conditions. -/
def failedConsistent : HttpState → Prop
  | HttpState.failed e => e.return_code = 0 ∨ e.http_status = 0
  | _ => True

/-! ## Theorems -/

theorem lookupEntry_setEntry_self {α : Type} :
    ∀ (es : List (String × α)) (k : String) (v : α),
    lookupEntry (setEntry es k v) k = some v := by
  intro es k v
  induction es with
  | nil => simp [setEntry, lookupEntry]
  | cons p rest ih =>
    by_cases h : p.1 = k
    · simp [setEntry, lookupEntry, h]
    · simp [setEntry, lookupEntry, h, ih]

theorem lookupEntry_setEntry_ne {α : Type} :
    ∀ (es : List (String × α)) (key : String) (v : α) (k : String),
    key ≠ k → lookupEntry (setEntry es key v) k = lookupEntry es k := by
  intro es key v k hne
  induction es with
  | nil => simp [setEntry, lookupEntry, hne]
  | cons p rest ih =>
    by_cases h : p.1 = key
    · simp [setEntry, lookupEntry, h, hne]
    · simp only [setEntry, lookupEntry, if_neg h]
      by_cases h2 : p.1 = k
      · simp [lookupEntry, h2]
      · simp [lookupEntry, h2, ih]

theorem runHttp_of_pending_none :
    ∀ (s : HttpState) (n : Nat) (ds : List Delivery),
    (∀ m, httpPendingHook s m = none) → runHttp s n ds = ([], s) := by
  intro s n ds h
  cases ds with
  | nil => simp [runHttp, h n]
  | cons d ds => simp [runHttp, h n]

theorem runHttp_append_of_terminal :
    ∀ (ds : List Delivery) (s : HttpState) (n : Nat) (es : List Delivery)
      (hooks : List Hook) (t : HttpState),
    (∀ m, httpPendingHook t m = none) →
    runHttp s n ds = (hooks, t) →
    runHttp s n (ds ++ es) = (hooks, t) := by
  intro ds
  induction ds with
  | nil =>
    intro s n es hooks t hterm hrun
    simp only [runHttp] at hrun
    have hs : s = t := congrArg Prod.snd hrun
    subst hs
    have hh : hooks = [] := by
      have := congrArg Prod.fst hrun
      simp [hterm n] at this
      exact this
    subst hh
    simpa using runHttp_of_pending_none s n es hterm
  | cons d ds ih =>
    intro s n es hooks t hterm hrun
    simp only [List.cons_append]
    simp only [runHttp] at hrun ⊢
    cases hph : httpPendingHook s n with
    | none =>
      rw [hph] at hrun
      simp at hrun
      rw [← hrun.1, ← hrun.2]
    | some hk =>
      rw [hph] at hrun
      cases hdel : deliverHttp s n d with
      | none =>
        rw [hdel] at hrun
        simp at hrun
        have hs : s = t := hrun.2
        subst hs
        exact absurd hph (by simp [hterm n])
      | some s' =>
        rw [hdel] at hrun
        simp at hrun
        have hrec : runHttp s' (n + 1) ds = ((runHttp s' (n + 1) ds).1, t) := by
          rw [← hrun.2]
        have := ih s' (n + 1) es (runHttp s' (n + 1) ds).1 t hterm hrec
        simp [this, ← hrun.1, ← hrun.2]

/-- Every state reached from a delivery step satisfies `failedConsistent`. -/
theorem retryOrFail_consistent (a : HttpAttempt) (e : HttpError)
    (h : e.return_code = 0 ∨ e.http_status = 0) :
    failedConsistent (retryOrFail a e) := by
  unfold retryOrFail
  split
  · trivial
  · exact h

theorem httpOnProcess_consistent (a : HttpAttempt) (p : ProcPayload) :
    failedConsistent (httpOnProcess a p) := by
  unfold httpOnProcess
  split
  · exact retryOrFail_consistent _ _ (Or.inr rfl)
  · split
    · exact retryOrFail_consistent _ _ (Or.inr rfl)
    · split
      · split
        · split
          · trivial
          · exact retryOrFail_consistent _ _ (Or.inl rfl)
        · exact retryOrFail_consistent _ _ (Or.inl rfl)
      · split
        · exact retryOrFail_consistent _ _ (Or.inl rfl)
        · trivial

theorem deliverHttp_consistent (s : HttpState) (n : Nat) (d : Delivery)
    (s' : HttpState) (h : deliverHttp s n d = some s') :
    failedConsistent s' := by
  cases s <;> cases d <;> simp [deliverHttp] at h
  case awaitingProcess.proc a id p =>
    rcases h with ⟨_, h2⟩
    rw [← h2]
    exact httpOnProcess_consistent a p
  case backingOff.timer a ms id t =>
    rcases h with ⟨_, h2⟩
    rw [← h2]
    trivial

theorem runHttp_consistent :
    ∀ (ds : List Delivery) (s : HttpState) (n : Nat),
    failedConsistent s → failedConsistent (runHttp s n ds).2 := by
  intro ds
  induction ds with
  | nil => intro s n h; simpa [runHttp] using h
  | cons d ds ih =>
    intro s n h
    simp only [runHttp]
    cases hph : httpPendingHook s n with
    | none => simpa using h
    | some hk =>
      cases hdel : deliverHttp s n d with
      | none => simpa using h
      | some s' =>
        have hs' : failedConsistent s' := deliverHttp_consistent s n d s' hdel
        simpa using ih s' (n + 1) hs'

/-- C4: for every url, options and timeout, if the first process delivery is
`(stdout = "HTTP/1.1 200\r\n\r\nBODY", return_code = 0, stderr = "")`, then
`http_request` terminates successfully with exactly the body `"BODY"` and
performs no retry: the only hook ever registered is the initial process hook,
and any further deliveries are ignored (no further process or timer
suspension). -/
theorem c4_first_attempt_success :
    ∀ (url : String) (options : List (String × String)) (timeout : Int)
      (max_retries : Nat) (extra : List Delivery),
    runHttp (http_request url options timeout max_retries) 0
      (Delivery.proc 0 ⟨"", 0, "HTTP/1.1 200\r\n\r\nBODY", ""⟩ :: extra)
    = ([Hook.process ⟨"url:" ++ url, setEntry options "header" "1", timeout, 0⟩],
       HttpState.succeeded "BODY") := by
  intro url options timeout max_retries extra
  have hbase :
      runHttp (http_request url options timeout max_retries) 0
        [Delivery.proc 0 ⟨"", 0, "HTTP/1.1 200\r\n\r\nBODY", ""⟩]
      = ([Hook.process ⟨"url:" ++ url, setEntry options "header" "1", timeout, 0⟩],
         HttpState.succeeded "BODY") := rfl
  exact runHttp_append_of_terminal _ _ _ extra _ (HttpState.succeeded "BODY")
    (fun m => rfl) hbase

/-- C5: for every url, `http_request(url, options, timeout, max_retries = 0)`
whose process delivery has `return_code = 0` and stdout
`"HTTP/1.1 400\r\n\r\nbad"` fails with a structured HTTP error carrying
`http_status = 400`, error text `"bad"` (the response body),
`return_code = 0` and the original url, with no retry: only the initial
process hook is registered and further deliveries are ignored. -/
theorem c5_http_error_no_budget :
    ∀ (url : String) (options : List (String × String)) (timeout : Int)
      (extra : List Delivery),
    runHttp (http_request url options timeout 0) 0
      (Delivery.proc 0 ⟨"", 0, "HTTP/1.1 400\r\n\r\nbad", ""⟩ :: extra)
    = ([Hook.process ⟨"url:" ++ url, setEntry options "header" "1", timeout, 0⟩],
       HttpState.failed ⟨url, 0, 400, "bad"⟩) := by
  intro url options timeout extra
  have hbase :
      runHttp (http_request url options timeout 0) 0
        [Delivery.proc 0 ⟨"", 0, "HTTP/1.1 400\r\n\r\nbad", ""⟩]
      = ([Hook.process ⟨"url:" ++ url, setEntry options "header" "1", timeout, 0⟩],
         HttpState.failed ⟨url, 0, 400, "bad"⟩) := rfl
  exact runHttp_append_of_terminal _ _ _ extra _ (HttpState.failed ⟨url, 0, 400, "bad"⟩)
    (fun m => rfl) hbase

/-- C2: for every url, options and timeout, `http_request` with
`max_retries = 2` given two transport-failure deliveries (`return_code = -2`)
each followed by a backoff-timer delivery and then a successful delivery
registers exactly two timer hooks (one after each failure) interleaved with
three process hooks and succeeds with the body; given a third consecutive
transport failure instead, it fails with the structured error of the last
failure (`return_code = -2`, `http_status = 0`) and retries no further (any
further deliveries are ignored and no further hook is registered). -/
theorem c2_retry_budget :
    ∀ (url : String) (options : List (String × String)) (timeout : Int),
    (runHttp (http_request url options timeout 2) 0
       [Delivery.proc 0 ⟨"", -2, "", ""⟩, Delivery.timer 1 [0],
        Delivery.proc 2 ⟨"", -2, "", ""⟩, Delivery.timer 3 [0],
        Delivery.proc 4 ⟨"", 0, "HTTP/2 200\r\n\r\nresponse", ""⟩]
     = ([Hook.process ⟨"url:" ++ url, setEntry options "header" "1", timeout, 0⟩,
         Hook.timer ⟨httpBackoffMs, 0, 1, 1⟩,
         Hook.process ⟨"url:" ++ url, setEntry options "header" "1", timeout, 2⟩,
         Hook.timer ⟨httpBackoffMs, 0, 1, 3⟩,
         Hook.process ⟨"url:" ++ url, setEntry options "header" "1", timeout, 4⟩],
        HttpState.succeeded "response"))
    ∧ ∀ (extra : List Delivery),
      runHttp (http_request url options timeout 2) 0
        ([Delivery.proc 0 ⟨"", -2, "", ""⟩, Delivery.timer 1 [0],
          Delivery.proc 2 ⟨"", -2, "", ""⟩, Delivery.timer 3 [0],
          Delivery.proc 4 ⟨"", -2, "", ""⟩] ++ extra)
      = ([Hook.process ⟨"url:" ++ url, setEntry options "header" "1", timeout, 0⟩,
          Hook.timer ⟨httpBackoffMs, 0, 1, 1⟩,
          Hook.process ⟨"url:" ++ url, setEntry options "header" "1", timeout, 2⟩,
          Hook.timer ⟨httpBackoffMs, 0, 1, 3⟩,
          Hook.process ⟨"url:" ++ url, setEntry options "header" "1", timeout, 4⟩],
         HttpState.failed ⟨url, -2, 0, ""⟩) := by
  intro url options timeout
  refine ⟨rfl, ?_⟩
  intro extra
  exact runHttp_append_of_terminal _ _ _ extra _ (HttpState.failed ⟨url, -2, 0, ""⟩)
    (fun m => rfl) rfl

/-- C3: for every call to `http_request` (any url, options, timeout and
remaining budget), a process delivery parsing to HTTP status 429 with header
`Retry-After: 12` registers a one-shot backoff timer of exactly 12000
milliseconds (`hook_timer(12000, 0, 1, _, id)`), and after that timer fires
the engine re-issues the identical request — same `url:` command and the same
merged options — with the retry budget `max_retries` unchanged in the
resulting attempt state. -/
theorem c3_ratelimit_replay :
    ∀ (url : String) (options : List (String × String)) (timeout : Int)
      (max_retries : Nat),
    runHttp (http_request url options timeout max_retries) 0
      [Delivery.proc 0 ⟨"", 0, "HTTP/2 429\r\nRetry-After: 12\r\n\r\n", ""⟩,
       Delivery.timer 1 [0]]
    = ([Hook.process ⟨"url:" ++ url, setEntry options "header" "1", timeout, 0⟩,
        Hook.timer ⟨12000, 0, 1, 1⟩,
        Hook.process ⟨"url:" ++ url, setEntry options "header" "1", timeout, 2⟩],
       HttpState.awaitingProcess ⟨url, options, timeout, max_retries⟩) := by
  intro url options timeout max_retries
  exact rfl

/-- C1 (amended): for every failure `http_request` raises to its caller, at
most one of `return_code ≠ 0` and `http_status ≥ 400` holds — never both —
and a delivery with `return_code = 0`, empty stdout and non-empty stderr
produces a failure satisfying neither (it carries `return_code = 0` and
`http_status = 0`). -/
theorem c1_failure_discriminators :
    (∀ (url : String) (options : List (String × String)) (timeout : Int)
       (max_retries n : Nat) (ds : List Delivery) (hooks : List Hook)
       (e : HttpError),
     runHttp (http_request url options timeout max_retries) n ds
       = (hooks, HttpState.failed e) →
     ¬(e.return_code ≠ 0 ∧ 400 ≤ e.http_status))
    ∧ ∀ (url : String) (options : List (String × String)) (timeout : Int),
      runHttp (http_request url options timeout 0) 0
        [Delivery.proc 0 ⟨"", 0, "", "err"⟩]
      = ([Hook.process ⟨"url:" ++ url, setEntry options "header" "1", timeout, 0⟩],
         HttpState.failed ⟨url, 0, 0, "err"⟩) := by
  constructor
  · intro url options timeout max_retries n ds hooks e hrun
    have hc : failedConsistent (runHttp (http_request url options timeout max_retries) n ds).2 :=
      runHttp_consistent ds _ n (by trivial)
    rw [hrun] at hc
    have hc' : e.return_code = 0 ∨ e.http_status = 0 := hc
    rintro ⟨hrc, hst⟩
    rcases hc' with h0 | h0
    · exact hrc h0
    · rw [h0] at hst
      omega
  · intro url options timeout
    exact rfl

/-- C1 witness: the amended theorem applied to a concrete run — a
`max_retries = 0` call delivered `(return_code = -2)` fails with
`HttpError("u", -2, 0, "")`, and the two discriminating conditions do not
both hold on that error. -/
theorem c1_failure_discriminators_witness :
    runHttp (http_request "u" [] 0 0) 0 [Delivery.proc 0 ⟨"", -2, "", ""⟩]
      = ([Hook.process ⟨"url:u", [("header", "1")], 0, 0⟩],
         HttpState.failed ⟨"u", -2, 0, ""⟩)
    ∧ ¬((HttpError.mk "u" (-2) 0 "").return_code ≠ 0
        ∧ 400 ≤ (HttpError.mk "u" (-2) 0 "").http_status) :=
  ⟨rfl,
   c1_failure_discriminators.1 "u" [] 0 0 0 [Delivery.proc 0 ⟨"", -2, "", ""⟩]
     [Hook.process ⟨"url:u", [("header", "1")], 0, 0⟩] ⟨"u", -2, 0, ""⟩ rfl⟩

/-- C1 counterexample: the claim as stated — exactly one of
`return_code ≠ 0` and `http_status ≥ 400` holds on every raised failure —
is false: a delivery with `return_code = 0`, empty stdout and stderr `"err"`
raises `HttpError` with `return_code = 0` and `http_status = 0`, so neither
condition holds and in particular not exactly one of them. -/
theorem c1_exactly_one_counterexample :
    (runHttp (http_request "http://example.com" [] 0 0) 0
       [Delivery.proc 0 ⟨"", 0, "", "err"⟩]).2
      = HttpState.failed (HttpError.mk "http://example.com" 0 0 "err")
    ∧ ¬(((HttpError.mk "http://example.com" 0 0 "err").return_code ≠ 0
          ∧ ¬ 400 ≤ (HttpError.mk "http://example.com" 0 0 "err").http_status)
        ∨ (¬ (HttpError.mk "http://example.com" 0 0 "err").return_code ≠ 0
          ∧ 400 ≤ (HttpError.mk "http://example.com" 0 0 "err").http_status)) := by
  refine ⟨rfl, ?_⟩
  decide

/-- C8: for every duration `d`, `sleep(d)` registers exactly one one-shot
timer hook (`hook_timer(d, 0, 1, _, n)`) with delay `d` milliseconds keyed by
the fresh Future id `n` it suspends on, both before any delivery arrives and
when the host delivers the completion payload to that id, in which case
`sleep` returns the delivered payload verbatim. -/
theorem c8_sleep_payload_verbatim :
    ∀ (d n : Nat) (p : List Int),
    runSleep (sleep d) n [] = ([⟨d, 0, 1, n⟩], SleepState.waiting d)
    ∧ runSleep (sleep d) n [Delivery.timer n p]
      = ([⟨d, 0, 1, n⟩], SleepState.finished p) := by
  intro d n p
  refine ⟨rfl, ?_⟩
  simp [runSleep, sleep, sleepPendingHook, sleepDeliver]

/-- C6: on any readiness notification, if the first frame read is a pong
control frame the callback records `last_pong_time` (the current time) and
returns `WEECHAT_RC_OK` after exactly one read, attempting no further read in
that invocation; and if a read would block (`ssl.SSLWantReadError`, no more
data available) the callback returns `WEECHAT_RC_OK` cleanly with the state
entirely unchanged — in particular the fd readiness registration is not
removed. -/
theorem c6_pong_and_would_block :
    (∀ (now : Nat) (st : WsState) (d : String) (rest : List ReadResult),
      ws_read_cb now st (ReadResult.frame ABNF.OPCODE_PONG d :: rest)
      = ({ st with lastPongTime := some now }, 1, WEECHAT_RC_OK))
    ∧ ∀ (now : Nat) (st : WsState) (rest : List ReadResult),
      ws_read_cb now st (ReadResult.wouldBlock :: rest)
      = (st, 1, WEECHAT_RC_OK) := by
  constructor
  · intro now st d rest
    rfl
  · intro now st rest
    rfl

/-- C7 counterexample: the claim quantifies over all data frames, but the
code forwards only text frames (`elif opcode != ABNF.OPCODE_TEXT: return`):
a binary data frame carrying `"x"` is neither decoded nor forwarded
(`received` stays empty) and the invocation ends after that single read, so
the following buffered text frame is not read. -/
theorem c7_binary_frame_counterexample :
    ws_read_cb 0 ⟨none, [], false⟩
      [ReadResult.frame ABNF.OPCODE_BINARY "x", ReadResult.frame ABNF.OPCODE_TEXT "y"]
    = (⟨none, [], false⟩, 1, WEECHAT_RC_OK) := by decide

/-- C7 (amended): every text data frame read is decoded as a structured
message unit and forwarded to upstream handling (`ws_recv`), after which the
read loop continues attempting further reads in the same invocation; every
other frame that is not a pong — including binary data frames — is ignored
and ends the invocation after that read. -/
theorem c7_text_frames_forwarded :
    (∀ (now : Nat) (st : WsState) (d : String) (rest : List ReadResult),
      ws_read_cb now st (ReadResult.frame ABNF.OPCODE_TEXT d :: rest)
      = ((ws_read_cb now { st with received := st.received ++ [d] } rest).1,
         (ws_read_cb now { st with received := st.received ++ [d] } rest).2.1 + 1,
         (ws_read_cb now { st with received := st.received ++ [d] } rest).2.2))
    ∧ ∀ (now : Nat) (st : WsState) (op : Nat) (d : String) (rest : List ReadResult),
      op ≠ ABNF.OPCODE_TEXT → op ≠ ABNF.OPCODE_PONG →
      ws_read_cb now st (ReadResult.frame op d :: rest) = (st, 1, WEECHAT_RC_OK) := by
  constructor
  · intro now st d rest
    rfl
  · intro now st op d rest htext hpong
    simp [ws_read_cb, hpong, htext]

/-- C7 witness: the amended theorem applied to a binary frame — it is
ignored and ends the invocation. -/
theorem c7_text_frames_forwarded_witness :
    ws_read_cb 5 ⟨none, ["m"], false⟩ [ReadResult.frame ABNF.OPCODE_BINARY "x"]
    = (⟨none, ["m"], false⟩, 1, WEECHAT_RC_OK) :=
  c7_text_frames_forwarded.2 5 ⟨none, ["m"], false⟩ ABNF.OPCODE_BINARY "x" []
    (by decide) (by decide)

/-- C9: for any key `k` absent from the users mapping and from the bots
mapping, the first lookup creates exactly one task (whose Future id is
recorded once in the task context, wrapping `_create_item(k)` with no info
task) and stores its Future under `k`, and a subsequent lookup of `k`
returns that same stored Future with the mapping and the task context
untouched — lookups are deduplicated through a single shared Future per
id. -/
theorem c9_missing_key_dedup :
    ∀ (mU : SlackUsers) (mB : SlackBots) (ctxU ctxB : TaskCtx) (k : String),
    lookupEntry mU.entries k = none →
    lookupEntry mB.entries k = none →
    (SlackUsers.getItem mU ctxU k
       = (ctxU.nextId, ⟨setEntry mU.entries k ctxU.nextId⟩,
          ⟨ctxU.nextId + 1, ctxU.created ++ [(ctxU.nextId, Coro.usersCreateItem k none)]⟩)
     ∧ lookupEntry (setEntry mU.entries k ctxU.nextId) k = some ctxU.nextId
     ∧ SlackUsers.getItem ⟨setEntry mU.entries k ctxU.nextId⟩
         ⟨ctxU.nextId + 1, ctxU.created ++ [(ctxU.nextId, Coro.usersCreateItem k none)]⟩ k
       = (ctxU.nextId, ⟨setEntry mU.entries k ctxU.nextId⟩,
          ⟨ctxU.nextId + 1, ctxU.created ++ [(ctxU.nextId, Coro.usersCreateItem k none)]⟩))
    ∧ (SlackBots.getItem mB ctxB k
       = (ctxB.nextId, ⟨setEntry mB.entries k ctxB.nextId⟩,
          ⟨ctxB.nextId + 1, ctxB.created ++ [(ctxB.nextId, Coro.botsCreateItem k none)]⟩)
     ∧ lookupEntry (setEntry mB.entries k ctxB.nextId) k = some ctxB.nextId
     ∧ SlackBots.getItem ⟨setEntry mB.entries k ctxB.nextId⟩
         ⟨ctxB.nextId + 1, ctxB.created ++ [(ctxB.nextId, Coro.botsCreateItem k none)]⟩ k
       = (ctxB.nextId, ⟨setEntry mB.entries k ctxB.nextId⟩,
          ⟨ctxB.nextId + 1, ctxB.created ++ [(ctxB.nextId, Coro.botsCreateItem k none)]⟩)) := by
  intro mU mB ctxU ctxB k hU hB
  constructor
  · refine ⟨?_, lookupEntry_setEntry_self mU.entries k ctxU.nextId, ?_⟩
    · simp [SlackUsers.getItem, hU, SlackUsers.missing, create_task]
    · simp [SlackUsers.getItem, lookupEntry_setEntry_self]
  · refine ⟨?_, lookupEntry_setEntry_self mB.entries k ctxB.nextId, ?_⟩
    · simp [SlackBots.getItem, hB, SlackBots.missing, create_task]
    · simp [SlackBots.getItem, lookupEntry_setEntry_self]

/-- C9 witness: the theorem applied to empty mappings and the key `"U1"`. -/
theorem c9_missing_key_dedup_witness :
    (SlackUsers.getItem ⟨[]⟩ ⟨0, []⟩ "U1"
       = (0, ⟨setEntry [] "U1" 0⟩, ⟨1, [] ++ [(0, Coro.usersCreateItem "U1" none)]⟩)
     ∧ lookupEntry (setEntry [] "U1" 0) "U1" = some 0
     ∧ SlackUsers.getItem ⟨setEntry [] "U1" 0⟩ ⟨1, [] ++ [(0, Coro.usersCreateItem "U1" none)]⟩ "U1"
       = (0, ⟨setEntry [] "U1" 0⟩, ⟨1, [] ++ [(0, Coro.usersCreateItem "U1" none)]⟩))
    ∧ (SlackBots.getItem ⟨[]⟩ ⟨5, []⟩ "U1"
       = (5, ⟨setEntry [] "U1" 5⟩, ⟨6, [] ++ [(5, Coro.botsCreateItem "U1" none)]⟩)
     ∧ lookupEntry (setEntry [] "U1" 5) "U1" = some 5
     ∧ SlackBots.getItem ⟨setEntry [] "U1" 5⟩ ⟨6, [] ++ [(5, Coro.botsCreateItem "U1" none)]⟩ "U1"
       = (5, ⟨setEntry [] "U1" 5⟩, ⟨6, [] ++ [(5, Coro.botsCreateItem "U1" none)]⟩)) :=
  c9_missing_key_dedup ⟨[]⟩ ⟨[]⟩ ⟨0, []⟩ ⟨5, []⟩ "U1" rfl rfl

theorem usersInitLoop_lookup (fetchId : Nat) :
    ∀ (is : List String) (m : SlackUsers) (ctx : TaskCtx) (k : String),
    k ∉ is →
    lookupEntry ((SlackUsers.initLoop fetchId is m ctx).1).entries k
      = lookupEntry m.entries k := by
  intro is
  induction is with
  | nil => intro m ctx k _; rfl
  | cons i is ih =>
    intro m ctx k hk
    have hne : i ≠ k := fun h => hk (h ▸ List.mem_cons_self i is)
    have hk' : k ∉ is := fun h => hk (List.mem_cons_of_mem i h)
    simp only [SlackUsers.initLoop]
    rw [ih _ _ k hk']
    exact lookupEntry_setEntry_ne m.entries i _ k hne

theorem usersInitLoop_created (fetchId : Nat) :
    ∀ (is : List String) (m : SlackUsers) (ctx : TaskCtx),
    ((SlackUsers.initLoop fetchId is m ctx).2).created
      = ctx.created ++ tasksForUsers fetchId ctx.nextId is := by
  intro is
  induction is with
  | nil => intro m ctx; simp [SlackUsers.initLoop, tasksForUsers]
  | cons i is ih =>
    intro m ctx
    simp only [SlackUsers.initLoop, create_task, tasksForUsers]
    rw [ih]
    simp

theorem botsInitLoop_lookup (fetchId : Nat) :
    ∀ (is : List String) (m : SlackBots) (ctx : TaskCtx) (k : String),
    k ∉ is →
    lookupEntry ((SlackBots.initLoop fetchId is m ctx).1).entries k
      = lookupEntry m.entries k := by
  intro is
  induction is with
  | nil => intro m ctx k _; rfl
  | cons i is ih =>
    intro m ctx k hk
    have hne : i ≠ k := fun h => hk (h ▸ List.mem_cons_self i is)
    have hk' : k ∉ is := fun h => hk (List.mem_cons_of_mem i h)
    simp only [SlackBots.initLoop]
    rw [ih _ _ k hk']
    exact lookupEntry_setEntry_ne m.entries i _ k hne

theorem botsInitLoop_created (fetchId : Nat) :
    ∀ (is : List String) (m : SlackBots) (ctx : TaskCtx),
    ((SlackBots.initLoop fetchId is m ctx).2).created
      = ctx.created ++ tasksForBots fetchId ctx.nextId is := by
  intro is
  induction is with
  | nil => intro m ctx; simp [SlackBots.initLoop, tasksForBots]
  | cons i is ih =>
    intro m ctx
    simp only [SlackBots.initLoop, create_task, tasksForBots]
    rw [ih]
    simp

theorem mem_absent_dedup (es : List (String × Nat)) (ids : List String) (j : String)
    (hj : j ∈ (ids.filter fun i => (lookupEntry es i).isNone).dedup) :
    lookupEntry es j = none ∧ j ∈ ids := by
  rw [List.mem_dedup, List.mem_filter] at hj
  exact ⟨Option.isNone_iff_eq_none.mp hj.2, hj.1⟩

/-- C10: for every `initialize_items(item_ids)` call on the users or bots
mapping, every key present before the call still maps to the same Future
afterwards (existing entries are never overwritten); the tasks created are
exactly, when the set of absent requested ids is non-empty, one shared
`_fetch_items_info` task for that batch followed by one `_create_item` task
per absent id (each referencing the shared fetch task), and nothing when it
is empty; and the absent-id set contains only keys of `item_ids` that were
absent from the mapping. -/
theorem c10_initialize_items_frame :
    ∀ (mU : SlackUsers) (ctxU : TaskCtx) (mB : SlackBots) (ctxB : TaskCtx)
      (ids : List String),
    ((∀ k v, lookupEntry mU.entries k = some v →
        lookupEntry ((SlackUsers.initialize_items mU ctxU ids).1).entries k = some v)
     ∧ ((SlackUsers.initialize_items mU ctxU ids).2).created
         = ctxU.created ++
           (if (ids.filter fun i => (lookupEntry mU.entries i).isNone).dedup = [] then []
            else (ctxU.nextId,
                  Coro.usersFetchItemsInfo
                    ((ids.filter fun i => (lookupEntry mU.entries i).isNone).dedup))
                 :: tasksForUsers ctxU.nextId (ctxU.nextId + 1)
                      ((ids.filter fun i => (lookupEntry mU.entries i).isNone).dedup))
     ∧ (∀ j, j ∈ (ids.filter fun i => (lookupEntry mU.entries i).isNone).dedup →
          lookupEntry mU.entries j = none ∧ j ∈ ids))
    ∧ ((∀ k v, lookupEntry mB.entries k = some v →
        lookupEntry ((SlackBots.initialize_items mB ctxB ids).1).entries k = some v)
     ∧ ((SlackBots.initialize_items mB ctxB ids).2).created
         = ctxB.created ++
           (if (ids.filter fun i => (lookupEntry mB.entries i).isNone).dedup = [] then []
            else (ctxB.nextId,
                  Coro.botsFetchItemsInfo
                    ((ids.filter fun i => (lookupEntry mB.entries i).isNone).dedup))
                 :: tasksForBots ctxB.nextId (ctxB.nextId + 1)
                      ((ids.filter fun i => (lookupEntry mB.entries i).isNone).dedup))
     ∧ (∀ j, j ∈ (ids.filter fun i => (lookupEntry mB.entries i).isNone).dedup →
          lookupEntry mB.entries j = none ∧ j ∈ ids)) := by
  intro mU ctxU mB ctxB ids
  constructor
  · by_cases h : (ids.filter fun i => (lookupEntry mU.entries i).isNone).dedup = []
    · refine ⟨?_, ?_, fun j hj => mem_absent_dedup mU.entries ids j hj⟩
      · intro k v hk
        simpa [SlackUsers.initialize_items, h] using hk
      · simp [SlackUsers.initialize_items, h]
    · refine ⟨?_, ?_, fun j hj => mem_absent_dedup mU.entries ids j hj⟩
      · intro k v hk
        have hknot : k ∉ (ids.filter fun i => (lookupEntry mU.entries i).isNone).dedup := by
          intro hmem
          have := (mem_absent_dedup mU.entries ids k hmem).1
          rw [hk] at this
          exact Option.noConfusion this
        simp only [SlackUsers.initialize_items, if_neg h, create_task]
        rw [usersInitLoop_lookup _ _ _ _ k hknot]
        exact hk
      · simp only [SlackUsers.initialize_items, if_neg h, create_task]
        rw [usersInitLoop_created]
        simp
  · by_cases h : (ids.filter fun i => (lookupEntry mB.entries i).isNone).dedup = []
    · refine ⟨?_, ?_, fun j hj => mem_absent_dedup mB.entries ids j hj⟩
      · intro k v hk
        simpa [SlackBots.initialize_items, h] using hk
      · simp [SlackBots.initialize_items, h]
    · refine ⟨?_, ?_, fun j hj => mem_absent_dedup mB.entries ids j hj⟩
      · intro k v hk
        have hknot : k ∉ (ids.filter fun i => (lookupEntry mB.entries i).isNone).dedup := by
          intro hmem
          have := (mem_absent_dedup mB.entries ids k hmem).1
          rw [hk] at this
          exact Option.noConfusion this
        simp only [SlackBots.initialize_items, if_neg h, create_task]
        rw [botsInitLoop_lookup _ _ _ _ k hknot]
        exact hk
      · simp only [SlackBots.initialize_items, if_neg h, create_task]
        rw [botsInitLoop_created]
        simp

/-- C10 witness: the theorem applied to a users mapping holding `("a", 7)`
with `ids = ["a", "b"]` (and an empty bots mapping): the existing entry for
`"a"` is preserved, the created tasks are exactly the shared fetch task and
one `_create_item` task for the absent `"b"`, and `"b"` is indeed an absent
requested key. -/
theorem c10_initialize_items_frame_witness :
    lookupEntry ((SlackUsers.initialize_items ⟨[("a", 7)]⟩ ⟨10, []⟩ ["a", "b"]).1).entries "a"
      = some 7
    ∧ ((SlackUsers.initialize_items (SlackUsers.mk [("a", 7)]) ⟨10, []⟩ ["a", "b"]).2).created
        = [] ++
          (if (["a", "b"].filter fun i =>
                (lookupEntry (SlackUsers.mk [("a", 7)]).entries i).isNone).dedup = [] then []
           else ((10 : Nat),
                 Coro.usersFetchItemsInfo
                   ((["a", "b"].filter fun i =>
                      (lookupEntry (SlackUsers.mk [("a", 7)]).entries i).isNone).dedup))
                :: tasksForUsers 10 (10 + 1)
                     ((["a", "b"].filter fun i =>
                        (lookupEntry (SlackUsers.mk [("a", 7)]).entries i).isNone).dedup))
    ∧ (lookupEntry (SlackUsers.mk [("a", 7)]).entries "b" = none ∧ "b" ∈ ["a", "b"]) :=
  ⟨(c10_initialize_items_frame ⟨[("a", 7)]⟩ ⟨10, []⟩ ⟨[]⟩ ⟨0, []⟩ ["a", "b"]).1.1 "a" 7 rfl,
   (c10_initialize_items_frame ⟨[("a", 7)]⟩ ⟨10, []⟩ ⟨[]⟩ ⟨0, []⟩ ["a", "b"]).1.2.1,
   (c10_initialize_items_frame ⟨[("a", 7)]⟩ ⟨10, []⟩ ⟨[]⟩ ⟨0, []⟩ ["a", "b"]).1.2.2 "b"
     (by decide)⟩
